import Mathlib

/-!
Verification development for the Container-Security-Scanner repository.

The repository's visible source is the browser front end `src/ui/html/script.js`;
the Flask backend (`scanner/app.py`: scan executor, report normalizer, SQLite
scan store, HTTP API) is referenced by the front end and described in the design
document but its file is not part of the sources available here, so it is
modelled from the spec where needed.  Front-end functions are embedded directly
from `script.js`.
-/

namespace CSS

/-! ## Front end: `src/ui/html/script.js` -/

/-- Embeds `countTotal` from `script.js` lines 66–68:
`Object.values(summary).reduce((acc, v) => acc + v, 0)`.
A summary object is represented by its entry list (`Object.entries` order);
`Object.values` is the second projection of each entry, and `reduce` with
initial accumulator `0` is a left fold. -/
def countTotal (summary : List (String × Int)) : Int :=
  (summary.map Prod.snd).foldl (fun acc v => acc + v) 0

/-- Embeds JavaScript `String.prototype.trim` (used as `imageInput.value.trim()`
on `script.js` line 24): removes leading and trailing whitespace characters. -/
def jsTrim (s : String) : String :=
  ⟨((s.data.dropWhile Char.isWhitespace).reverse.dropWhile
      Char.isWhitespace).reverse⟩

/-- The pieces of browser state the scan-button handler reads and writes:
the text in the `image-input` field and the text of the `message` div. -/
structure UIState where
  inputValue : String
  message : String
deriving Repr, DecidableEq

/-- Outcome of the `fetch('/api/scan', …)` call as the handler observes it:
a successful (`resp.ok`) response carrying `data.summary`, a non-ok response
whose JSON body may carry a `message` field, or a thrown error (network
failure, etc.) with its message. -/
inductive FetchResult where
  | success (summary : List (String × Int))
  | httpError (message : Option String)
  | networkError (message : String)
deriving Repr, DecidableEq

/-- Embeds the JavaScript fallback `err.message || 'Scan failed'` from
`script.js` line 42: an absent or falsy (empty) `message` field falls back
to `'Scan failed'`. -/
def orScanFailed (m : Option String) : String :=
  match m with
  | some s => if s.isEmpty then "Scan failed" else s
  | none => "Scan failed"

/-- Embeds the `scanBtn` click handler from `script.js` lines 23–57.
Returns the final UI state together with the list of `POST /api/scan`
request bodies issued (the handler issues at most one, with the trimmed
image).  The empty-after-trim guard (lines 24–28) returns before any
fetch; otherwise the handler posts, and on success sets the completion
message via `countTotal` and clears the input (lines 48–50), while the
catch block (lines 53–56) only sets the message text. -/
def scanBtnClick (st : UIState) (resp : FetchResult) : UIState × List String :=
  let image := jsTrim st.inputValue
  if image.isEmpty then
    (st, [])
  else
    match resp with
    | .success summary =>
        ({ inputValue := "",
           message := "Scan complete. Found " ++ toString (countTotal summary)
                        ++ " vulnerabilities." }, [image])
    | .httpError m =>
        ({ st with message := "Error: " ++ orScanFailed m }, [image])
    | .networkError m =>
        ({ st with message := "Error: " ++ m }, [image])

/-- One row the front end appends to the scans table: either the
`No scans found` placeholder row or a row of scan data. -/
inductive TableRow where
  | noScans
  | scanRow (id : Nat) (image : String) (createdAt : String)
      (critical high medium low unknown : Int)
deriving Repr, DecidableEq

/-- Embeds the JavaScript fallback `scan.summary.CRITICAL || 0` used on
`script.js` lines 95–99: a missing key (`undefined`) or a falsy value
(`0`) renders as `0`. -/
def summaryGet (summary : List (String × Int)) (key : String) : Int :=
  match summary.find? (fun p => p.1 = key) with
  | some p => p.2
  | none => 0

/-- One scan element of the JSON array returned by `GET /api/scans`,
as `fetchScans` reads it. -/
structure ScanListItem where
  id : Nat
  image : String
  created_at : String
  summary : List (String × Int)
deriving Repr, DecidableEq

/-- Embeds the rendering part of `fetchScans` from `script.js` lines 77–110:
given the parsed response array, the rows placed into the table body.  If
`scans.length === 0` the single `No scans found` row is rendered (lines
83–86); otherwise one row per scan with the five severity cells (lines
89–110). -/
def renderScans (scans : List ScanListItem) : List TableRow :=
  if scans.length = 0 then
    [TableRow.noScans]
  else
    scans.map (fun scan =>
      TableRow.scanRow scan.id scan.image scan.created_at
        (summaryGet scan.summary "CRITICAL")
        (summaryGet scan.summary "HIGH")
        (summaryGet scan.summary "MEDIUM")
        (summaryGet scan.summary "LOW")
        (summaryGet scan.summary "UNKNOWN"))

/-! ## Back end, modelled from the spec

The backend file `scanner/app.py` (Flask API, Trivy executor, normalizer,
SQLite store) is not among the available sources; the definitions below are
modelled from the design document (§3–§7). -/

/-- Modelled from the spec: the five severity labels recognized by both ends
(§6), in the order used throughout (`CRITICAL, HIGH, MEDIUM, LOW, UNKNOWN`). -/
def severityLabels : List String :=
  ["CRITICAL", "HIGH", "MEDIUM", "LOW", "UNKNOWN"]

/-- Modelled from the spec: one finding inside the engine's report (glossary:
"one reported vulnerability instance … tagged with a severity").  Its severity
label may be missing (`none`) or be an arbitrary string. -/
structure Finding where
  severity : Option String
deriving Repr, DecidableEq

/-- Modelled from the spec: the normalizer's internal report representation —
the part relevant here is its finding list (§4.2 "walks the report's finding
list"). -/
structure Report where
  findings : List Finding
deriving Repr, DecidableEq

/-- Modelled from the spec: the severity bucket a finding is tallied under
(§4.2): a recognized label keeps itself, unknown or missing labels accumulate
under `UNKNOWN`. -/
def bucketOf (sev : Option String) : String :=
  match sev with
  | some l => if l ∈ severityLabels then l else "UNKNOWN"
  | none => "UNKNOWN"

/-- Modelled from the spec: the count of findings tallied under one label
(§4.2). -/
def countSeverity (fs : List Finding) (label : String) : Nat :=
  (fs.filter (fun f => bucketOf f.severity = label)).length

/-- Modelled from the spec: the severity summary derived from a finding list
(§3 `summary`): a mapping with all five keys always present, defaulting to 0.
Represented as an entry list in the canonical label order, so it is also what
the front end's `countTotal` and `summaryGet` consume. -/
def mkSummary (fs : List Finding) : List (String × Int) :=
  severityLabels.map (fun l => (l, (countSeverity fs l : Int)))

/-- Modelled from the spec: the error taxonomy of §7. -/
inductive ScanError where
  | invalidInput
  | timeoutErr
  | engineError (diagnostic : String)
  | parseError
  | storageError
  | notFound
deriving Repr, DecidableEq

/-- Modelled from the spec: the raw output of the scan engine as the
normalizer sees it (§4.2): either parseable into a report, or malformed. -/
inductive RawOutput where
  | parseable (r : Report)
  | malformed (text : String)
deriving Repr, DecidableEq

/-- Modelled from the spec: `normalize(raw) -> (Report, Summary) | ParseError`
(§4.2): parseable output yields the report and its derived summary, malformed
output yields `ParseError`. -/
def normalize (raw : RawOutput) : Except ScanError (Report × List (String × Int)) :=
  match raw with
  | .parseable r => .ok (r, mkSummary r.findings)
  | .malformed _ => .error .parseError

/-- Modelled from the spec: the outcome of one invocation of the external
scanning engine (§4.1): structured output, a timeout, or a non-timeout failure
with diagnostic text. -/
inductive EngineResult where
  | output (raw : RawOutput)
  | timedOut
  | failed (diagnostic : String)
deriving Repr, DecidableEq

/-- Modelled from the spec: the persisted unit of work (§3 `ScanRecord`). -/
structure ScanRecord where
  id : Nat
  image : String
  created_at : Nat
  summary : List (String × Int)
  report : Report
deriving Repr, DecidableEq

/-- Modelled from the spec: the scan store's state (§4.3): persisted records in
insertion order plus the store-owned fresh-id source (§9 "store-owned atomic
sequence"). -/
structure Store where
  nextId : Nat
  records : List ScanRecord
deriving Repr, DecidableEq

/-- Modelled from the spec: the store before any scan exists. -/
def Store.empty : Store := ⟨1, []⟩

/-- Modelled from the spec: `create(image, report, summary) -> ScanRecord`
(§4.3): assigns a fresh `id` and `created_at` and persists atomically — the
record list is extended by the one complete record in a single step. -/
def Store.create (st : Store) (now : Nat) (image : String)
    (report : Report) (summary : List (String × Int)) : ScanRecord × Store :=
  let record : ScanRecord :=
    { id := st.nextId, image := image, created_at := now,
      summary := summary, report := report }
  (record, { nextId := st.nextId + 1, records := st.records ++ [record] })

/-- Modelled from the spec: `get(id) -> ScanRecord | NotFoundError` (§4.3). -/
def Store.get (st : Store) (id : Nat) : Except ScanError ScanRecord :=
  match st.records.find? (fun r => r.id = id) with
  | some r => .ok r
  | none => .error .notFound

/-- Modelled from the spec: `list()` (§4.3): the stored records in order
(insertion order, which is `id` ascending). -/
def Store.list (st : Store) : List ScanRecord := st.records

/-- Modelled from the spec: the per-request environment of a start-scan
request: what the external engine returns for the image (§4.1) and whether
the persistence layer succeeds (§7 `StorageError`), plus the completion
timestamp the store assigns. -/
structure Env where
  engine : String → EngineResult
  storageOk : Bool
  now : Nat

/-- Modelled from the spec: the "Start scan" operation of the API layer
(§4.4), composing executor, normalizer and store: reject input that is empty
after trimming before invocation (§4.1), surface engine timeout and failure,
surface normalizer parse errors, surface storage failure with no record
created, and on success create exactly one record.  Returns the typed result
together with the store after the request. -/
def startScan (env : Env) (st : Store) (image : String) :
    Except ScanError ScanRecord × Store :=
  if (jsTrim image).isEmpty then
    (.error .invalidInput, st)
  else
    match env.engine (jsTrim image) with
    | .timedOut => (.error .timeoutErr, st)
    | .failed d => (.error (.engineError d), st)
    | .output raw =>
        match normalize raw with
        | .error e => (.error e, st)
        | .ok (report, summary) =>
            if env.storageOk then
              let (record, st2) := st.create env.now (jsTrim image) report summary
              (.ok record, st2)
            else
              (.error .storageError, st)

/-- Modelled from the spec: the HTTP status the API layer maps each typed
error to (§4.4, §7): 400 for invalid input, 502 for engine/timeout/parse
failure, 500-equivalent for storage failure, 404 for an unknown id. -/
def statusOf (e : ScanError) : Nat :=
  match e with
  | .invalidInput => 400
  | .timeoutErr => 502
  | .engineError _ => 502
  | .parseError => 502
  | .storageError => 500
  | .notFound => 404

/-- Modelled from the spec: `GET /api/scans/{id}` (§6): 200 with the full
record, or the mapped error status (404 for an unknown id) with no record. -/
def apiGetScan (st : Store) (id : Nat) : Nat × Option ScanRecord :=
  match st.get id with
  | .ok r => (200, some r)
  | .error e => (statusOf e, none)

/-- Modelled from the spec: `GET /api/scans` (§6): a 200 response whose body
is the sequence of scan list items (`id`, `image`, `created_at`, `summary` —
no `report`), an empty sequence (never null) when no scans exist.  Timestamps
are serialized for the front end as strings. -/
def apiListScans (st : Store) : List ScanListItem :=
  st.list.map (fun r =>
    { id := r.id, image := r.image, created_at := toString r.created_at,
      summary := r.summary })

/-! ## Sample inputs used by witnesses

These realize the spec's §8 scenario: image `alpine:3.18`, a mocked engine
returning 2 CRITICAL and 1 LOW finding. -/

/-- The §8 scenario report: two CRITICAL findings and one LOW finding. -/
def sampleReport : Report :=
  ⟨[⟨some "CRITICAL"⟩, ⟨some "CRITICAL"⟩, ⟨some "LOW"⟩]⟩

/-- A mocked environment: the engine returns `sampleReport`, storage works,
completion time 17. -/
def sampleEnv : Env :=
  ⟨fun _ => .output (.parseable sampleReport), true, 17⟩

/-- The record the §8 scenario stores. -/
def sampleRecord : ScanRecord :=
  { id := 1, image := "alpine:3.18", created_at := 17,
    summary := [("CRITICAL", 2), ("HIGH", 0), ("MEDIUM", 0),
                ("LOW", 1), ("UNKNOWN", 0)],
    report := sampleReport }

/-- The store after the §8 scenario runs against the empty store. -/
def sampleStore : Store := ⟨2, [sampleRecord]⟩

/-! ## Helper lemmas -/

/-- Every finding is tallied under one of the five labels. -/
theorem bucketOf_mem (sev : Option String) : bucketOf sev ∈ severityLabels := by
  cases sev with
  | none => simp [bucketOf, severityLabels]
  | some l =>
      simp only [bucketOf]
      split
      · assumption
      · simp [severityLabels]

/-- Unfolding one finding out of a per-label count. -/
theorem countSeverity_cons (f : Finding) (fs : List Finding) (l : String) :
    countSeverity (f :: fs) l =
      (if bucketOf f.severity = l then 1 else 0) + countSeverity fs l := by
  by_cases h : bucketOf f.severity = l <;>
    simp [countSeverity, List.filter_cons, h, Nat.add_comm]

/-- The summary's values sum to the number of findings: each finding lands in
exactly one of the five (distinct) buckets. -/
theorem mkSummary_sum (fs : List Finding) :
    ((mkSummary fs).map Prod.snd).sum = (fs.length : Int) := by
  induction fs with
  | nil => simp [mkSummary, severityLabels, countSeverity]
  | cons f fs ih =>
      have hb := bucketOf_mem f.severity
      simp only [severityLabels, List.mem_cons, List.not_mem_nil, or_false] at hb
      simp only [mkSummary, severityLabels, List.map_cons, List.map_nil,
        List.sum_cons, List.sum_nil] at ih ⊢
      rcases hb with h | h | h | h | h <;>
        simp [countSeverity_cons, h] <;> omega

/-- A left fold of addition starting from `a` adds the list's sum to `a`. -/
theorem foldl_add_from (a : Int) (l : List Int) :
    l.foldl (fun acc v => acc + v) a = a + l.sum := by
  induction l generalizing a with
  | nil => simp
  | cons x xs ih => simp [ih, add_assoc]

/-- countTotal is the sum of the entry values. -/
theorem countTotal_eq_sum (s : List (String × Int)) :
    countTotal s = (s.map Prod.snd).sum := by
  simp [countTotal, foldl_add_from]

/-- Inversion of a successful start-scan: the record's summary is the one the
normalizer derives from its report, its fields are as assigned, and the store
gained exactly that record. -/
theorem startScan_ok_shape (env : Env) (st : Store) (image : String)
    (r : ScanRecord) (st2 : Store)
    (h : startScan env st image = (.ok r, st2)) :
    r.summary = mkSummary r.report.findings ∧
    r.id = st.nextId ∧ r.image = jsTrim image ∧ r.created_at = env.now ∧
    st2 = { nextId := st.nextId + 1, records := st.records ++ [r] } := by
  by_cases h1 : (jsTrim image).isEmpty
  · simp [startScan, h1] at h
  · cases he : env.engine (jsTrim image) with
    | timedOut => simp [startScan, h1, he] at h
    | failed d => simp [startScan, h1, he] at h
    | output raw =>
        cases raw with
        | malformed t => simp [startScan, h1, he, normalize] at h
        | parseable rep =>
            by_cases hs : env.storageOk
            · simp [startScan, h1, he, normalize, hs, Store.create] at h
              obtain ⟨hr, hst⟩ := h
              subst hr
              subst hst
              simp
            · simp [startScan, h1, he, normalize, hs] at h

/-- Inversion of a failed start-scan: the store is unchanged. -/
theorem startScan_error_store (env : Env) (st : Store) (image : String)
    (e : ScanError) (st2 : Store)
    (h : startScan env st image = (.error e, st2)) : st2 = st := by
  by_cases h1 : (jsTrim image).isEmpty
  · simp [startScan, h1, Prod.ext_iff] at h
    exact h.2.symm
  · cases he : env.engine (jsTrim image) with
    | timedOut =>
        simp [startScan, h1, he, Prod.ext_iff] at h
        exact h.2.symm
    | failed d =>
        simp [startScan, h1, he, Prod.ext_iff] at h
        exact h.2.symm
    | output raw =>
        cases raw with
        | malformed t =>
            simp [startScan, h1, he, normalize, Prod.ext_iff] at h
            exact h.2.symm
        | parseable rep =>
            by_cases hs : env.storageOk
            · simp [startScan, h1, he, normalize, hs, Store.create] at h
            · simp [startScan, h1, he, normalize, hs, Prod.ext_iff] at h
              exact h.2.symm

/-! ## Claim theorems -/

/-- Claim C9: for every summary object all of whose values are numbers,
`countTotal` returns exactly the arithmetic sum of those values, and for a
summary with no keys it returns 0, the reduce accumulator's initial value. -/
theorem C9_countTotal_sum :
    (∀ s : List (String × Int), countTotal s = (s.map Prod.snd).sum) ∧
    countTotal ([] : List (String × Int)) = 0 :=
  ⟨countTotal_eq_sum, rfl⟩

/-- Claim C1: for every valid image string and successful engine output, the
sum of all values in the stored record's severity summary equals the number of
findings in its stored report, and the UI's displayed total (`countTotal` over
the summary) equals that finding count as well. -/
theorem C1_summary_total (env : Env) (st : Store) (image : String)
    (r : ScanRecord) (st2 : Store)
    (h : startScan env st image = (.ok r, st2)) :
    (r.summary.map Prod.snd).sum = (r.report.findings.length : Int) ∧
    countTotal r.summary = (r.report.findings.length : Int) := by
  have hs := (startScan_ok_shape env st image r st2 h).1
  refine ⟨?_, ?_⟩
  · rw [hs, mkSummary_sum]
  · rw [countTotal_eq_sum, hs, mkSummary_sum]

/-- Witness for C1 at the §8 scenario: `alpine:3.18` with 2 CRITICAL and
1 LOW finding. -/
theorem C1_summary_total_witness :
    (sampleRecord.summary.map Prod.snd).sum
        = (sampleRecord.report.findings.length : Int) ∧
    countTotal sampleRecord.summary
        = (sampleRecord.report.findings.length : Int) :=
  C1_summary_total sampleEnv Store.empty "alpine:3.18" sampleRecord sampleStore
    (by rfl)

/-- Claim C2: for every ScanRecord ever created, its summary's key list is
exactly `CRITICAL, HIGH, MEDIUM, LOW, UNKNOWN` (case-sensitive, uppercase, so
in particular the key set is exactly those five), every key maps to a
non-negative integer, and a severity with no findings maps to 0 rather than
being absent. -/
theorem C2_summary_keys (env : Env) (st : Store) (image : String)
    (r : ScanRecord) (st2 : Store)
    (h : startScan env st image = (.ok r, st2)) :
    r.summary.map Prod.fst = severityLabels ∧
    (∀ p ∈ r.summary, 0 ≤ p.2 ∧ ∃ n : Nat, p.2 = (n : Int)) ∧
    (∀ l ∈ severityLabels,
        (l, (countSeverity r.report.findings l : Int)) ∈ r.summary) ∧
    (∀ l ∈ severityLabels, countSeverity r.report.findings l = 0 →
        (l, (0 : Int)) ∈ r.summary) := by
  have hs := (startScan_ok_shape env st image r st2 h).1
  refine ⟨?_, ?_, ?_, ?_⟩
  · rw [hs]; simp [mkSummary, severityLabels]
  · rw [hs]
    intro p hp
    simp only [mkSummary, List.mem_map] at hp
    obtain ⟨l, _, hpl⟩ := hp
    subst hpl
    exact ⟨by simp, countSeverity r.report.findings l, by simp⟩
  · rw [hs]
    intro l hl
    exact List.mem_map_of_mem _ hl
  · rw [hs]
    intro l hl h0
    have h3 : (l, (countSeverity r.report.findings l : Int))
        ∈ mkSummary r.report.findings :=
      List.mem_map_of_mem _ hl
    rw [h0] at h3
    simpa using h3

/-- Witness for C2 at the §8 scenario record. -/
theorem C2_summary_keys_witness :
    sampleRecord.summary.map Prod.fst = severityLabels ∧
    (∀ p ∈ sampleRecord.summary, 0 ≤ p.2 ∧ ∃ n : Nat, p.2 = (n : Int)) ∧
    (∀ l ∈ severityLabels,
        (l, (countSeverity sampleRecord.report.findings l : Int))
          ∈ sampleRecord.summary) ∧
    (∀ l ∈ severityLabels, countSeverity sampleRecord.report.findings l = 0 →
        (l, (0 : Int)) ∈ sampleRecord.summary) :=
  C2_summary_keys sampleEnv Store.empty "alpine:3.18" sampleRecord sampleStore
    (by rfl)

/-- Claim C3: an image that is empty after trimming whitespace is rejected
with `InvalidInputError` before the engine is invoked (for every engine), no
record is created and `list()` is unchanged; the front-end handler trims the
input field and issues no `POST /api/scan` request when the trimmed value is
empty. -/
theorem C3_empty_image_rejected (env : Env) (st : Store) (image : String)
    (h : (jsTrim image).isEmpty = true) :
    startScan env st image = (.error .invalidInput, st) ∧
    ((startScan env st image).2).list = st.list ∧
    (∀ ui : UIState, ∀ resp : FetchResult, ui.inputValue = image →
        (scanBtnClick ui resp).2 = []) := by
  refine ⟨?_, ?_, ?_⟩
  · simp [startScan, h]
  · simp [startScan, h]
  · intro ui resp hui
    simp [scanBtnClick, hui, h]

/-- Witness for C3: three spaces trim to the empty string; the request is
rejected against a non-empty store, which is left unchanged, and the handler
issues no request. -/
theorem C3_empty_image_rejected_witness :
    startScan sampleEnv sampleStore "   " = (.error .invalidInput, sampleStore) ∧
    (scanBtnClick ⟨"   ", "m0"⟩ (.networkError "boom")).2 = [] :=
  ⟨(C3_empty_image_rejected sampleEnv sampleStore "   " (by decide)).1,
   (C3_empty_image_rejected sampleEnv sampleStore "   " (by decide)).2.2
      ⟨"   ", "m0"⟩ (.networkError "boom") rfl⟩

/-- Claim C4: on success exactly one ScanRecord is created (the store's record
list is extended by exactly the returned record, in one atomic step), and on
every failure path the store is completely unchanged, so no partial record is
ever observable. -/
theorem C4_record_creation (env : Env) (st : Store) (image : String) :
    (∀ r st2, startScan env st image = (.ok r, st2) →
        st2.records = st.records ++ [r]) ∧
    (∀ e st2, startScan env st image = (.error e, st2) → st2 = st) := by
  constructor
  · intro r st2 h
    rw [(startScan_ok_shape env st image r st2 h).2.2.2.2]
  · intro e st2 h
    exact startScan_error_store env st image e st2 h

/-- Witness for C4: the §8 scenario creates exactly `sampleRecord` on the
empty store, and a timed-out scan leaves the store unchanged. -/
theorem C4_record_creation_witness :
    sampleStore.records = Store.empty.records ++ [sampleRecord] ∧
    Store.empty = Store.empty :=
  ⟨(C4_record_creation sampleEnv Store.empty "alpine:3.18").1
      sampleRecord sampleStore (by rfl),
   (C4_record_creation ⟨fun _ => .timedOut, true, 0⟩ Store.empty "node:8").2
      .timeoutErr Store.empty (by rfl)⟩

/-- Claim C5: `create(image, report, summary)` followed immediately by
`get(id)` on the returned record's id yields the very record create returned,
equal in every field. -/
theorem C5_create_get (st : Store) (now : Nat) (image : String)
    (report : Report) (summary : List (String × Int))
    (hwf : ∀ r ∈ st.records, r.id < st.nextId) :
    ((st.create now image report summary).2).get
        ((st.create now image report summary).1).id
      = .ok ((st.create now image report summary).1) := by
  simp only [Store.create, Store.get]
  rw [List.find?_append]
  have h1 : st.records.find? (fun r => r.id = st.nextId) = none := by
    rw [List.find?_eq_none]
    intro r hr
    simpa using Nat.ne_of_lt (hwf r hr)
  rw [h1]
  simp

/-- Witness for C5 on the empty store with the §8 report. -/
theorem C5_create_get_witness :
    ((Store.empty.create 5 "node:8" sampleReport
        (mkSummary sampleReport.findings)).2).get
      ((Store.empty.create 5 "node:8" sampleReport
        (mkSummary sampleReport.findings)).1).id
    = .ok ((Store.empty.create 5 "node:8" sampleReport
        (mkSummary sampleReport.findings)).1) :=
  C5_create_get Store.empty 5 "node:8" sampleReport
    (mkSummary sampleReport.findings) (by simp [Store.empty])

/-- Claim C6: `get(id)` for an id identifying no stored record yields
`NotFoundError` — never a crash and never a default or fabricated record —
and the HTTP layer maps it to a 404 response with no body record. -/
theorem C6_get_notFound (st : Store) (id : Nat)
    (h : ∀ r ∈ st.records, r.id ≠ id) :
    st.get id = .error .notFound ∧ apiGetScan st id = (404, none) := by
  have hf : st.records.find? (fun r => r.id = id) = none := by
    rw [List.find?_eq_none]
    intro r hr
    simpa using h r hr
  constructor
  · simp [Store.get, hf]
  · simp [apiGetScan, Store.get, hf, statusOf]

/-- Witness for C6: id 99 is absent from the store holding only record 1. -/
theorem C6_get_notFound_witness :
    sampleStore.get 99 = .error .notFound ∧
    apiGetScan sampleStore 99 = (404, none) :=
  C6_get_notFound sampleStore 99 (by decide)

/-- Claim C7: with no scans stored, listing returns an empty sequence (not
null — the operation totals to a list value), and the front end renders the
single `No scans found` row and no scan rows. -/
theorem C7_empty_list (st : Store) (h : st.records = []) :
    apiListScans st = [] ∧
    renderScans (apiListScans st) = [TableRow.noScans] ∧
    (∀ row ∈ renderScans (apiListScans st), row = TableRow.noScans) := by
  have he : apiListScans st = [] := by
    simp [apiListScans, Store.list, h]
  refine ⟨he, ?_, ?_⟩
  · rw [he]
    simp [renderScans]
  · rw [he]
    simp [renderScans]

/-- Witness for C7 at the empty store. -/
theorem C7_empty_list_witness :
    apiListScans Store.empty = [] ∧
    renderScans (apiListScans Store.empty) = [TableRow.noScans] ∧
    (∀ row ∈ renderScans (apiListScans Store.empty), row = TableRow.noScans) :=
  C7_empty_list Store.empty rfl

/-- Claim C8: two consecutive `create` calls (the store serializes id
assignment, so concurrent creates execute as some serial order of atomic
creates) yield distinct ids; the fresh id differs from every id already in
the store (never reused), the freshness invariant is preserved, and id
uniqueness over the whole store is preserved across the store's lifetime. -/
theorem C8_ids_distinct (st : Store)
    (hwf : ∀ r ∈ st.records, r.id < st.nextId)
    (now1 now2 : Nat) (img1 img2 : String) (rep1 rep2 : Report)
    (sum1 sum2 : List (String × Int)) :
    ((st.create now1 img1 rep1 sum1).1).id ≠
      ((((st.create now1 img1 rep1 sum1).2).create now2 img2 rep2 sum2).1).id ∧
    (∀ r ∈ st.records, r.id ≠ ((st.create now1 img1 rep1 sum1).1).id) ∧
    (∀ r ∈ ((st.create now1 img1 rep1 sum1).2).records,
        r.id < ((st.create now1 img1 rep1 sum1).2).nextId) ∧
    ((st.records.map ScanRecord.id).Nodup →
      (((st.create now1 img1 rep1 sum1).2).records.map ScanRecord.id).Nodup) := by
  refine ⟨?_, ?_, ?_, ?_⟩
  · simp [Store.create]
  · intro r hr
    simpa [Store.create] using Nat.ne_of_lt (hwf r hr)
  · intro r hr
    simp only [Store.create, List.mem_append, List.mem_singleton] at hr
    rcases hr with hr | hr
    · exact Nat.lt_succ_of_lt (hwf r hr)
    · subst hr
      simp [Store.create]
  · intro hnd
    have hm : (((st.create now1 img1 rep1 sum1).2).records.map ScanRecord.id)
        = st.records.map ScanRecord.id ++ [st.nextId] := by
      simp [Store.create]
    rw [hm]
    refine List.Nodup.append hnd (List.nodup_singleton _) ?_
    intro a ha hb
    simp only [List.mem_singleton] at hb
    subst hb
    simp only [List.mem_map] at ha
    obtain ⟨r, hr, hid⟩ := ha
    exact absurd hid (Nat.ne_of_lt (hwf r hr))

/-- Witness for C8 on the empty store. -/
theorem C8_ids_distinct_witness :
    ((Store.empty.create 0 "a" ⟨[]⟩ []).1).id ≠
      ((((Store.empty.create 0 "a" ⟨[]⟩ []).2).create 1 "b" ⟨[]⟩ []).1).id ∧
    (∀ r ∈ Store.empty.records, r.id ≠ ((Store.empty.create 0 "a" ⟨[]⟩ []).1).id) ∧
    (∀ r ∈ ((Store.empty.create 0 "a" ⟨[]⟩ []).2).records,
        r.id < ((Store.empty.create 0 "a" ⟨[]⟩ []).2).nextId) ∧
    ((Store.empty.records.map ScanRecord.id).Nodup →
      (((Store.empty.create 0 "a" ⟨[]⟩ []).2).records.map ScanRecord.id).Nodup) :=
  C8_ids_distinct Store.empty (by simp [Store.empty]) 0 1 "a" "b" ⟨[]⟩ ⟨[]⟩ [] []

/-- Claim C10: the image input field is cleared exactly on the successful
path; on a non-ok response or a thrown error the input field keeps its value
and only the message text changes. -/
theorem C10_input_cleared_only_on_success (st : UIState)
    (h : (jsTrim st.inputValue).isEmpty = false) :
    (∀ s, (scanBtnClick st (.success s)).1.inputValue = "") ∧
    (∀ m, (scanBtnClick st (.httpError m)).1 =
        { st with message := "Error: " ++ orScanFailed m }) ∧
    (∀ m, (scanBtnClick st (.networkError m)).1 =
        { st with message := "Error: " ++ m }) := by
  refine ⟨?_, ?_, ?_⟩ <;> intro x <;> simp [scanBtnClick, h]

/-- Witness for C10 at input `node:8`: success clears the field, a 502-style
response with no message and a thrown network error both leave it intact. -/
theorem C10_input_cleared_only_on_success_witness :
    (scanBtnClick ⟨"node:8", "m0"⟩ (.success [("CRITICAL", 2)])).1.inputValue
        = "" ∧
    (scanBtnClick ⟨"node:8", "m0"⟩ (.httpError none)).1 =
        { (⟨"node:8", "m0"⟩ : UIState) with
            message := "Error: " ++ orScanFailed none } ∧
    (scanBtnClick ⟨"node:8", "m0"⟩ (.networkError "net down")).1 =
        { (⟨"node:8", "m0"⟩ : UIState) with
            message := "Error: " ++ "net down" } :=
  ⟨(C10_input_cleared_only_on_success ⟨"node:8", "m0"⟩ (by decide)).1
      [("CRITICAL", 2)],
   (C10_input_cleared_only_on_success ⟨"node:8", "m0"⟩ (by decide)).2.1 none,
   (C10_input_cleared_only_on_success ⟨"node:8", "m0"⟩ (by decide)).2.2
      "net down"⟩

end CSS
